import Mathlib

/-!
Shallow embedding of the geschenk25 mobile client core layers:

* `src/utils/errors.ts` — the error taxonomy (`ErrorType`), `getUserMessage`
  and `parseError`;
* `src/lib/api.ts` — the HTTP adapter `ApiClient.request`, which classifies
  HTTP outcomes into the taxonomy and returns an `ApiResponse`;
* `src/services/groupService.ts` — the domain service operations, which
  validate group-id strings with `parseInt`, call the adapter, and either
  degrade (reads) or throw `GroupServiceError` (writes);
* `src/context/AuthContext.tsx` — the session/auth state holder
  (`checkAuth`, `signIn`, `signUp`, `signOut`).

JavaScript dynamic values are embedded as the inductive `JSValue`.
Functions that can raise a runtime `TypeError` in JavaScript (for example
`parseError`, which calls `.toLowerCase()` or `.includes()` on values that
may not be strings) are embedded as `Option`-valued functions, with `none`
meaning the call throws.
-/

mutual

/-- Embedding of JavaScript runtime values, with the structure the embedded
code inspects: primitives, arrays, and objects as field lists.  The `Bool`
on `obj` records whether the object is a `TypeError` instance (the code
tests `error instanceof TypeError`). -/
inductive JSValue where
  | undefined : JSValue
  | null : JSValue
  | str : String → JSValue
  | num : Int → JSValue
  | boolean : Bool → JSValue
  | obj : Bool → JSFields → JSValue
  | arr : JSList → JSValue
deriving Repr, DecidableEq

/-- Field list of a JavaScript object (keys with values, in order). -/
inductive JSFields where
  | nil : JSFields
  | cons : String → JSValue → JSFields → JSFields
deriving Repr, DecidableEq

/-- Element list of a JavaScript array. -/
inductive JSList where
  | nil : JSList
  | cons : JSValue → JSList → JSList
deriving Repr, DecidableEq

end

/-- First value bound to key `k`, if any. -/
def JSFields.lookup : JSFields → String → Option JSValue
  | .nil, _ => none
  | .cons k v rest, key => if k = key then some v else rest.lookup key

/-- Build a field list from a Lean association list. -/
def JSFields.ofList : List (String × JSValue) → JSFields
  | [] => .nil
  | (k, v) :: rest => .cons k v (JSFields.ofList rest)

namespace JSValue

/-- Object literal from an association list. -/
def mkObj (te : Bool) (fs : List (String × JSValue)) : JSValue :=
  .obj te (JSFields.ofList fs)

/-- JavaScript truthiness: `undefined`, `null`, `false`, `0` and `""` are
falsy; every object and array is truthy. -/
def truthy : JSValue → Bool
  | .undefined => false
  | .null => false
  | .str s => s ≠ ""
  | .num n => n ≠ 0
  | .boolean b => b
  | .obj _ _ => true
  | .arr _ => true

/-- Property read with optional-chaining semantics (`v?.k`): reading a field
off a non-object, or a missing field, yields `undefined`. -/
def jget : JSValue → String → JSValue
  | .obj _ fs, k =>
    match fs.lookup k with
    | some v => v
    | none => .undefined
  | _, _ => .undefined

/-- The JavaScript `in` operator as the code uses it (guarded by a
a JavaScript typeof-object test): field presence on an object. -/
def hasField : JSValue → String → Bool
  | .obj _ fs, k => (fs.lookup k).isSome
  | _, _ => false

/-- JavaScript `a || b`. -/
def jor (a b : JSValue) : JSValue := if a.truthy then a else b

/-- Is the value `null` or `undefined` — the two values on which a plain
(non-optional) JavaScript property read throws a `TypeError`? -/
def nullish : JSValue → Bool
  | .null => true
  | .undefined => true
  | _ => false

/-- Is the value a `TypeError` instance (`error instanceof TypeError`)? -/
def isTypeErr : JSValue → Bool
  | .obj te _ => te
  | _ => false

/-- Is the value an object in the JavaScript typeof sense
(arrays and `null` are; the guard in the code additionally requires
truthiness, which rules `null` out)? -/
def isObj : JSValue → Bool
  | .obj _ _ => true
  | .arr _ => true
  | .null => true
  | _ => false

end JSValue

/-- Does `s` contain `pat` as a substring (JavaScript
`String.prototype.includes`, for a non-empty literal pattern)? -/
def listIncl : List Char → List Char → Bool
  | [], pat => pat.isEmpty
  | c :: rest, pat => pat.isPrefixOf (c :: rest) || listIncl rest pat

/-- JavaScript `s.includes(pat)`. -/
def strIncludes (s pat : String) : Bool := listIncl s.data pat.data

/-- JavaScript `s.toLowerCase()` (ASCII, which covers every string the code
lowercases). -/
def lowerStr (s : String) : String := ⟨s.data.map Char.toLower⟩

mutual

/-- JavaScript `String(v)` conversion, to the precision that the fallback of `parseError`
needs: primitives convert exactly; an array joins its elements
with `","` (`null`/`undefined` elements become empty); a `TypeError`
instance prints `TypeError: <message>` when its message is a non-empty
string (the only message shape the repository can produce) and `TypeError`
otherwise; any other object prints `[object Object]`. -/
def jsToString : JSValue → String
  | .undefined => "undefined"
  | .null => "null"
  | .str s => s
  | .num n => toString n
  | .boolean b => if b then "true" else "false"
  | .obj te fs =>
    if te then
      match fs.lookup "message" with
      | some (.str s) => if s = "" then "TypeError" else "TypeError: " ++ s
      | _ => "TypeError"
    else "[object Object]"
  | .arr l => jsListToString l

/-- Array-to-string join for `jsToString`. -/
def jsListToString : JSList → String
  | .nil => ""
  | .cons v .nil => jsElemToString v
  | .cons v rest => jsElemToString v ++ "," ++ jsListToString rest

/-- Element conversion inside an array join: `null` and `undefined`
become the empty string. -/
def jsElemToString : JSValue → String
  | .undefined => ""
  | .null => ""
  | v => jsToString v

end

/-- The error taxonomy of `src/utils/errors.ts` (`enum ErrorType`). -/
inductive ErrorType where
  | NETWORK
  | API
  | VALIDATION
  | AUTHENTICATION
  | AUTHORIZATION
  | NOT_FOUND
  | SERVER
  | UNKNOWN
deriving Repr, DecidableEq

/-- The string value each `ErrorType` member carries in the source enum. -/
def ErrorType.toStr : ErrorType → String
  | .NETWORK => "NETWORK"
  | .API => "API"
  | .VALIDATION => "VALIDATION"
  | .AUTHENTICATION => "AUTHENTICATION"
  | .AUTHORIZATION => "AUTHORIZATION"
  | .NOT_FOUND => "NOT_FOUND"
  | .SERVER => "SERVER"
  | .UNKNOWN => "UNKNOWN"

/-- Embeds `getUserMessage` of `src/utils/errors.ts` (the unused `statusCode`
parameter is dropped).  `none` models the runtime `TypeError` raised by
`message.toLowerCase()` in the `API` branch when `message` is not a
string. -/
def getUserMessage (t : ErrorType) (message : JSValue) : Option JSValue :=
  match t with
  | .NETWORK =>
    some (.str "Unable to connect to the server. Please check your internet connection and try again.")
  | .AUTHENTICATION => some (.str "Your session has expired. Please log in again.")
  | .AUTHORIZATION => some (.str "You do not have permission to perform this action.")
  | .NOT_FOUND => some (.str "The requested resource was not found.")
  | .VALIDATION => some (message.jor (.str "Please check your input and try again."))
  | .SERVER => some (.str "The server encountered an error. Please try again later.")
  | .API =>
    match message with
    | .str s =>
      let l := lowerStr s
      if strIncludes l "username" then
        some (.str "This username is already taken. Please choose another.")
      else if strIncludes l "password" then
        some (.str "Invalid password. Please try again.")
      else if strIncludes l "invitation" then
        some (.str "Unable to send invitation. The user may already be a member or have a pending invitation.")
      else if strIncludes l "assignment" then
        some (.str "Unable to create assignments. Please ensure there are at least 2 members in the group.")
      else some ((JSValue.str s).jor (.str "An error occurred. Please try again."))
    | _ => none
  | .UNKNOWN => some (.str "An unexpected error occurred. Please try again.")

/-- Continuation of `parseError` after the initial
test that the error is a TypeError whose message includes the word fetch
(lines 83–180 of `src/utils/errors.ts`). -/
def parseErrorRest (error : JSValue) : Option JSValue :=
  if error.truthy && error.isObj && error.hasField "type" && error.hasField "userMessage" then
    some error
  else
    let statusCode :=
      ((error.jget "statusCode").jor (error.jget "status")).jor ((error.jget "response").jget "status")
    if statusCode.truthy then
      match statusCode with
      | .num 401 =>
        (getUserMessage .AUTHENTICATION (error.jget "message")).map fun um =>
          JSValue.mkObj false
            [("type", .str "AUTHENTICATION"),
             ("message", (error.jget "message").jor (.str "Unauthorized")),
             ("originalError", error), ("statusCode", statusCode), ("userMessage", um)]
      | .num 403 =>
        (getUserMessage .AUTHORIZATION (error.jget "message")).map fun um =>
          JSValue.mkObj false
            [("type", .str "AUTHORIZATION"),
             ("message", (error.jget "message").jor (.str "Forbidden")),
             ("originalError", error), ("statusCode", statusCode), ("userMessage", um)]
      | .num 404 =>
        (getUserMessage .NOT_FOUND (error.jget "message")).map fun um =>
          JSValue.mkObj false
            [("type", .str "NOT_FOUND"),
             ("message", (error.jget "message").jor (.str "Not found")),
             ("originalError", error), ("statusCode", statusCode), ("userMessage", um)]
      | .num 400 =>
        (getUserMessage .VALIDATION (error.jget "message")).map fun um =>
          JSValue.mkObj false
            [("type", .str "VALIDATION"),
             ("message", (error.jget "message").jor (.str "Bad request")),
             ("originalError", error), ("statusCode", statusCode), ("userMessage", um)]
      | .num 500 | .num 502 | .num 503 | .num 504 =>
        (getUserMessage .SERVER (error.jget "message")).map fun um =>
          JSValue.mkObj false
            [("type", .str "SERVER"),
             ("message", (error.jget "message").jor (.str "Server error")),
             ("originalError", error), ("statusCode", statusCode), ("userMessage", um)]
      | _ =>
        (getUserMessage .API (error.jget "message")).map fun um =>
          JSValue.mkObj false
            [("type", .str "API"),
             ("message", (error.jget "message").jor (.str "API error")),
             ("originalError", error), ("statusCode", statusCode), ("userMessage", um)]
    else
      let message :=
        ((error.jget "message").jor (error.jget "error")).jor
          ((JSValue.str (jsToString error)).jor (.str "Unknown error"))
      match message with
      | .str s =>
        let l := lowerStr s
        if strIncludes l "network" || strIncludes l "connection" then
          (getUserMessage .NETWORK (.str s)).map fun um =>
            JSValue.mkObj false
              [("type", .str "NETWORK"), ("message", .str s),
               ("originalError", error), ("userMessage", um)]
        else if strIncludes l "unauthorized" || strIncludes l "authentication" then
          (getUserMessage .AUTHENTICATION (.str s)).map fun um =>
            JSValue.mkObj false
              [("type", .str "AUTHENTICATION"), ("message", .str s),
               ("originalError", error), ("userMessage", um)]
        else
          (getUserMessage .API (.str s)).map fun um =>
            JSValue.mkObj false
              [("type", .str "API"), ("message", .str s),
               ("originalError", error), ("userMessage", um)]
      | _ => none

/-- Embeds `parseError` of `src/utils/errors.ts`.  `none` models the call
throwing a runtime `TypeError` (`.includes`/`.toLowerCase` applied to a
non-string). -/
def parseError (error : JSValue) : Option JSValue :=
  if error.isTypeErr then
    match error.jget "message" with
    | .str s =>
      if strIncludes s "fetch" then
        (getUserMessage .NETWORK (.str s)).map fun um =>
          JSValue.mkObj false
            [("type", .str "NETWORK"), ("message", .str s),
             ("originalError", error), ("userMessage", um)]
      else parseErrorRest error
    | _ => none
  else parseErrorRest error

/-! ## The HTTP adapter (`src/lib/api.ts`) -/

/-- The shape `ApiClient.request` resolves with: `{ data?, error?, appError? }`.
Absent fields are `undefined`. -/
structure ApiResponse where
  data : JSValue
  error : JSValue
  appError : JSValue
deriving Repr, DecidableEq

/-- An `Error` instance as `fetch`/`response.json()`/`response.text()` can
reject with: a `TypeError` or other `Error`, carrying a string message. -/
def jsError (te : Bool) (msg : String) : JSValue :=
  JSValue.mkObj te [("message", .str msg)]

/-- The observable outcome of one `fetch` inside `ApiClient.request`:
either the promise rejected with an `Error` (a `TypeError` per the fetch
specification; `te` records the `instanceof TypeError` test, `msg` the
message string), or a response arrived with a JSON content type whose body
parsed (`jsonResp`), or with a JSON content type whose body failed to parse
(`jsonParseFail`), or with a non-JSON content type (`nonJson`). -/
inductive FetchOutcome where
  | thrown : Bool → String → FetchOutcome
  | jsonResp : Nat → JSValue → FetchOutcome
  | jsonParseFail : Nat → FetchOutcome
  | nonJson : Nat → String → FetchOutcome
deriving Repr, DecidableEq

/-- The `catch` block of `ApiClient.request` (lines 107–112 of
`src/lib/api.ts`): classify the thrown error with `parseError` and return
its `userMessage` as the `error` field.  The second arm is unreachable
for the error shapes the try block can throw (an `Error` instance with a
string message never makes `parseError` throw). -/
def catchPath (te : Bool) (msg : String) : ApiResponse :=
  match parseError (jsError te msg) with
  | some appError => ⟨.undefined, appError.jget "userMessage", appError⟩
  | none => ⟨.undefined, .undefined, .undefined⟩

/-- Embeds `ApiClient.request` of `src/lib/api.ts`, as a function of the fetch
outcome (URL, method and headers do not affect the returned
`ApiResponse`).  The `originalError` payload of the `jsonParseFail` branch
(the JSON exception object) is elided as `undefined`.  In the non-2xx
JSON branch the source reads `data.error` with a plain (non-optional)
access: when the parsed body is `null` that read throws a `TypeError`
inside the try block and the catch classifies it instead (the precise
wording of the engine message is engine-dependent and the quotes around
the property name are elided here; no engine wording contains a keyword
`parseError` sniffs, so the classification is unaffected). -/
def request (o : FetchOutcome) : ApiResponse :=
  match o with
  | .thrown te msg => catchPath te msg
  | .jsonParseFail status =>
    let um : JSValue := .str "The server returned an invalid response. Please try again."
    let e := JSValue.mkObj false
      [("type", .str "API"), ("message", .str "Invalid response from server"),
       ("originalError", .undefined), ("statusCode", .num status), ("userMessage", um)]
    ⟨.undefined, um, e⟩
  | .nonJson status text =>
    let t : JSValue := if 500 ≤ status then .str "SERVER" else .str "API"
    let um : JSValue :=
      if 500 ≤ status then .str "The server encountered an error. Please try again later."
      else .str "An error occurred. Please try again."
    let e := JSValue.mkObj false
      [("type", t),
       ("message", (JSValue.str text).jor (.str ("HTTP " ++ toString status))),
       ("originalError", JSValue.mkObj false [("status", .num status), ("text", .str text)]),
       ("statusCode", .num status), ("userMessage", um)]
    ⟨.undefined, um, e⟩
  | .jsonResp status data =>
    if 200 ≤ status ∧ status ≤ 299 then ⟨data, .undefined, .undefined⟩
    else if data.nullish then
      catchPath true ("Cannot read properties of " ++
        (if data = .null then "null" else "undefined") ++ " (reading error)")
    else
      let t : JSValue :=
        if status = 401 then .str "AUTHENTICATION"
        else if status = 403 then .str "AUTHORIZATION"
        else if status = 404 then .str "NOT_FOUND"
        else if status = 400 then .str "VALIDATION"
        else if 500 ≤ status then .str "SERVER"
        else .str "API"
      let um : JSValue :=
        if status = 401 then .str "Your session has expired. Please log in again."
        else if status = 403 then .str "You do not have permission to perform this action."
        else if status = 404 then .str "The requested resource was not found."
        else if status = 400 then (data.jget "error").jor (.str "Please check your input and try again.")
        else (data.jget "error").jor (.str "An error occurred. Please try again.")
      let e := JSValue.mkObj false
        [("type", t),
         ("message", (data.jget "error").jor (.str ("HTTP " ++ toString status))),
         ("originalError", JSValue.mkObj false [("status", .num status), ("data", data)]),
         ("statusCode", .num status), ("userMessage", um)]
      ⟨.undefined, um, e⟩

/-! ## `parseInt` (JavaScript, as used by the service layer) -/

/-- Hexadecimal digit test for the `0x` form of `parseInt`. -/
def isHexDigitChar (c : Char) : Bool :=
  c.isDigit || ('a' ≤ c && c ≤ 'f') || ('A' ≤ c && c ≤ 'F')

/-- Value of one digit character. -/
def digitVal (c : Char) : Nat :=
  if c.isDigit then c.toNat - '0'.toNat
  else if 'a' ≤ c && c ≤ 'f' then c.toNat - 'a'.toNat + 10
  else if 'A' ≤ c && c ≤ 'F' then c.toNat - 'A'.toNat + 10
  else 0

/-- Accumulate digit characters in the given base. -/
def digitsToNat (base : Nat) (ds : List Char) : Nat :=
  ds.foldl (fun acc c => acc * base + digitVal c) 0

/-- JavaScript `parseInt(s)` (no radix argument): skip leading whitespace,
optional sign, an optional `0x`/`0X` hexadecimal prefix, then the maximal
run of digits; `none` models `NaN` (no digits). -/
def parseInt (s : String) : Option Int :=
  let cs := s.data.dropWhile Char.isWhitespace
  let (neg, cs1) :=
    match cs with
    | '-' :: r => (true, r)
    | '+' :: r => (false, r)
    | _ => (false, cs)
  let core : Option Nat :=
    match cs1 with
    | '0' :: x :: r =>
      if x = 'x' || x = 'X' then
        let ds := r.takeWhile isHexDigitChar
        if ds.isEmpty then none else some (digitsToNat 16 ds)
      else
        let ds := ('0' :: x :: r).takeWhile Char.isDigit
        if ds.isEmpty then none else some (digitsToNat 10 ds)
    | _ =>
      let ds := cs1.takeWhile Char.isDigit
      if ds.isEmpty then none else some (digitsToNat 10 ds)
  core.map fun n => if neg then -(n : Int) else (n : Int)

/-! ## The domain service layer (`src/services/groupService.ts`) -/

/-- Embeds `GroupServiceError`: the service-level exception.  Its `message` is the
`Error` superclass message, set by the constructor from
`appError.userMessage`. -/
structure GroupServiceError where
  appError : JSValue
  message : String
deriving Repr, DecidableEq

/-- The `GroupServiceError` constructor (`super(appError.userMessage)`;
`new Error(undefined)` leaves the message empty). -/
def GroupServiceError.ofAppError (ae : JSValue) : GroupServiceError :=
  ⟨ae, match ae.jget "userMessage" with
       | .undefined => ""
       | v => jsToString v⟩

/-- Result of one service operation: resolution with a value, or a thrown
`GroupServiceError`. -/
inductive SvcOutcome (α : Type) where
  | ok : α → SvcOutcome α
  | err : GroupServiceError → SvcOutcome α
deriving Repr, DecidableEq

/-- One service-operation run: whether the adapter (network) was called,
and the outcome. -/
structure ServiceCall (α : Type) where
  adapterCalled : Bool
  outcome : SvcOutcome α
deriving Repr, DecidableEq

/-- The `response.appError || parseError(response.error)` expression every
service operation evaluates on an errored response; `none` again means a
thrown runtime `TypeError` (from inside `parseError`). -/
def serviceAppError (resp : ApiResponse) : Option JSValue :=
  if resp.appError.truthy then some resp.appError else parseError resp.error

/-- The `API`-typed error the payload-returning mutations synthesize when a
successful response body lacks the expected entity. -/
def noDataError (message userMessage : String) : JSValue :=
  JSValue.mkObj false
    [("type", .str "API"), ("message", .str message), ("userMessage", .str userMessage)]

/-- The client-side validation error every id-taking service operation
synthesizes when `parseInt(groupId)` is `NaN`. -/
def invalidGroupIdError (groupId : String) : JSValue :=
  JSValue.mkObj false
    [("type", .str "VALIDATION"),
     ("message", .str ("Invalid group ID: " ++ groupId)),
     ("userMessage", .str "Invalid group ID")]

namespace groupService

/-- Embeds `groupService.getGroups`: on an errored response, logs and returns `[]`
(the log evaluates `response.appError || parseError(response.error)`, which
can itself throw — hence `Option`); otherwise `response.data?.groups || []`. -/
def getGroups (resp : ApiResponse) : Option (ServiceCall JSValue) :=
  if resp.error.truthy then
    (serviceAppError resp).map fun _ => ⟨true, .ok (.arr .nil)⟩
  else some ⟨true, .ok ((resp.data.jget "groups").jor (.arr .nil))⟩

/-- Embeds `groupService.createGroup`: throws on an errored response; throws an
`API`-typed error when the body has no truthy `group`; otherwise resolves
with `response.data.group`. -/
def createGroup (resp : ApiResponse) : Option (ServiceCall JSValue) :=
  if resp.error.truthy then
    (serviceAppError resp).map fun ae => ⟨true, .err (.ofAppError ae)⟩
  else if !(resp.data.jget "group").truthy then
    some ⟨true, .err (.ofAppError (noDataError "No group data returned" "Failed to create group. Please try again."))⟩
  else some ⟨true, .ok (resp.data.jget "group")⟩

/-- Embeds `groupService.getGroupById`: `NaN` group id → log, return `null`
without calling the adapter; errored response → `null` (both the
`NOT_FOUND` arm and the fall-through return `null`); otherwise
`response.data?.group || null`. -/
def getGroupById (adapter : Int → ApiResponse) (groupId : String) :
    Option (ServiceCall JSValue) :=
  match parseInt groupId with
  | none => some ⟨false, .ok .null⟩
  | some id =>
    let resp := adapter id
    if resp.error.truthy then
      (serviceAppError resp).map fun _ => ⟨true, .ok .null⟩
    else some ⟨true, .ok ((resp.data.jget "group").jor .null)⟩

/-- Embeds `groupService.updateGroup`: `NaN` group id → throw `VALIDATION`
without calling the adapter; errored response → throw; missing `group` in
the body → throw `API`; otherwise resolve with the group. -/
def updateGroup (adapter : Int → ApiResponse) (groupId : String) :
    Option (ServiceCall JSValue) :=
  match parseInt groupId with
  | none => some ⟨false, .err (.ofAppError (invalidGroupIdError groupId))⟩
  | some id =>
    let resp := adapter id
    if resp.error.truthy then
      (serviceAppError resp).map fun ae => ⟨true, .err (.ofAppError ae)⟩
    else if !(resp.data.jget "group").truthy then
      some ⟨true, .err (.ofAppError (noDataError "No group data returned" "Failed to update group. Please try again."))⟩
    else some ⟨true, .ok (resp.data.jget "group")⟩

/-- Embeds `groupService.deleteGroup`: `NaN` group id → throw `VALIDATION` without
calling the adapter; errored response → throw; otherwise resolve. -/
def deleteGroup (adapter : Int → ApiResponse) (groupId : String) :
    Option (ServiceCall Unit) :=
  match parseInt groupId with
  | none => some ⟨false, .err (.ofAppError (invalidGroupIdError groupId))⟩
  | some id =>
    let resp := adapter id
    if resp.error.truthy then
      (serviceAppError resp).map fun ae => ⟨true, .err (.ofAppError ae)⟩
    else some ⟨true, .ok ()⟩

/-- Embeds `groupService.inviteUser` (the username argument only reaches the
adapter and is folded into it). -/
def inviteUser (adapter : Int → ApiResponse) (groupId : String) :
    Option (ServiceCall Unit) :=
  match parseInt groupId with
  | none => some ⟨false, .err (.ofAppError (invalidGroupIdError groupId))⟩
  | some id =>
    let resp := adapter id
    if resp.error.truthy then
      (serviceAppError resp).map fun ae => ⟨true, .err (.ofAppError ae)⟩
    else some ⟨true, .ok ()⟩

/-- Embeds `groupService.getPendingInvitations`: errored response → `[]`;
otherwise `response.data?.invitations || []`. -/
def getPendingInvitations (resp : ApiResponse) : Option (ServiceCall JSValue) :=
  if resp.error.truthy then
    (serviceAppError resp).map fun _ => ⟨true, .ok (.arr .nil)⟩
  else some ⟨true, .ok ((resp.data.jget "invitations").jor (.arr .nil))⟩

/-- Embeds `groupService.acceptInvitation` (numeric id, no parsing). -/
def acceptInvitation (resp : ApiResponse) : Option (ServiceCall Unit) :=
  if resp.error.truthy then
    (serviceAppError resp).map fun ae => ⟨true, .err (.ofAppError ae)⟩
  else some ⟨true, .ok ()⟩

/-- Embeds `groupService.rejectInvitation` (numeric id, no parsing). -/
def rejectInvitation (resp : ApiResponse) : Option (ServiceCall Unit) :=
  if resp.error.truthy then
    (serviceAppError resp).map fun ae => ⟨true, .err (.ofAppError ae)⟩
  else some ⟨true, .ok ()⟩

/-- Embeds `groupService.cancelInvitation` (the invitation id only reaches the
adapter and is folded into it). -/
def cancelInvitation (adapter : Int → ApiResponse) (groupId : String) :
    Option (ServiceCall Unit) :=
  match parseInt groupId with
  | none => some ⟨false, .err (.ofAppError (invalidGroupIdError groupId))⟩
  | some id =>
    let resp := adapter id
    if resp.error.truthy then
      (serviceAppError resp).map fun ae => ⟨true, .err (.ofAppError ae)⟩
    else some ⟨true, .ok ()⟩

/-- Embeds `groupService.leaveGroup`. -/
def leaveGroup (adapter : Int → ApiResponse) (groupId : String) :
    Option (ServiceCall Unit) :=
  match parseInt groupId with
  | none => some ⟨false, .err (.ofAppError (invalidGroupIdError groupId))⟩
  | some id =>
    let resp := adapter id
    if resp.error.truthy then
      (serviceAppError resp).map fun ae => ⟨true, .err (.ofAppError ae)⟩
    else some ⟨true, .ok ()⟩

/-- Embeds `groupService.removeMember` (the user id only reaches the adapter). -/
def removeMember (adapter : Int → ApiResponse) (groupId : String) :
    Option (ServiceCall Unit) :=
  match parseInt groupId with
  | none => some ⟨false, .err (.ofAppError (invalidGroupIdError groupId))⟩
  | some id =>
    let resp := adapter id
    if resp.error.truthy then
      (serviceAppError resp).map fun ae => ⟨true, .err (.ofAppError ae)⟩
    else some ⟨true, .ok ()⟩

/-- Embeds `groupService.assignSecretSanta`. -/
def assignSecretSanta (adapter : Int → ApiResponse) (groupId : String) :
    Option (ServiceCall Unit) :=
  match parseInt groupId with
  | none => some ⟨false, .err (.ofAppError (invalidGroupIdError groupId))⟩
  | some id =>
    let resp := adapter id
    if resp.error.truthy then
      (serviceAppError resp).map fun ae => ⟨true, .err (.ofAppError ae)⟩
    else some ⟨true, .ok ()⟩

/-- Embeds `groupService.getAssignment`: `NaN` group id → `null` without calling
the adapter; errored response → `null`; otherwise
`response.data?.assignment || null`. -/
def getAssignment (adapter : Int → ApiResponse) (groupId : String) :
    Option (ServiceCall JSValue) :=
  match parseInt groupId with
  | none => some ⟨false, .ok .null⟩
  | some id =>
    let resp := adapter id
    if resp.error.truthy then
      (serviceAppError resp).map fun _ => ⟨true, .ok .null⟩
    else some ⟨true, .ok ((resp.data.jget "assignment").jor .null)⟩

/-- Embeds `groupService.deleteAssignments`. -/
def deleteAssignments (adapter : Int → ApiResponse) (groupId : String) :
    Option (ServiceCall Unit) :=
  match parseInt groupId with
  | none => some ⟨false, .err (.ofAppError (invalidGroupIdError groupId))⟩
  | some id =>
    let resp := adapter id
    if resp.error.truthy then
      (serviceAppError resp).map fun ae => ⟨true, .err (.ofAppError ae)⟩
    else some ⟨true, .ok ()⟩

/-- Embeds `groupService.createGiftIdea` (recipient, idea and link only reach the
adapter): throws on error, throws `API` when the body has no truthy
`gift_idea`, otherwise resolves with it. -/
def createGiftIdea (adapter : Int → ApiResponse) (groupId : String) :
    Option (ServiceCall JSValue) :=
  match parseInt groupId with
  | none => some ⟨false, .err (.ofAppError (invalidGroupIdError groupId))⟩
  | some id =>
    let resp := adapter id
    if resp.error.truthy then
      (serviceAppError resp).map fun ae => ⟨true, .err (.ofAppError ae)⟩
    else if !(resp.data.jget "gift_idea").truthy then
      some ⟨true, .err (.ofAppError (noDataError "No gift idea data returned" "Failed to create gift idea. Please try again."))⟩
    else some ⟨true, .ok (resp.data.jget "gift_idea")⟩

/-- Embeds `groupService.getGiftIdeas`: `NaN` group id → `[]` without calling the
adapter; errored response → `[]`; otherwise
`response.data?.gift_ideas || []`. -/
def getGiftIdeas (adapter : Int → ApiResponse) (groupId : String) :
    Option (ServiceCall JSValue) :=
  match parseInt groupId with
  | none => some ⟨false, .ok (.arr .nil)⟩
  | some id =>
    let resp := adapter id
    if resp.error.truthy then
      (serviceAppError resp).map fun _ => ⟨true, .ok (.arr .nil)⟩
    else some ⟨true, .ok ((resp.data.jget "gift_ideas").jor (.arr .nil))⟩

/-- Embeds `groupService.updateGiftIdea`. -/
def updateGiftIdea (adapter : Int → ApiResponse) (groupId : String) :
    Option (ServiceCall JSValue) :=
  match parseInt groupId with
  | none => some ⟨false, .err (.ofAppError (invalidGroupIdError groupId))⟩
  | some id =>
    let resp := adapter id
    if resp.error.truthy then
      (serviceAppError resp).map fun ae => ⟨true, .err (.ofAppError ae)⟩
    else if !(resp.data.jget "gift_idea").truthy then
      some ⟨true, .err (.ofAppError (noDataError "No gift idea data returned" "Failed to update gift idea. Please try again."))⟩
    else some ⟨true, .ok (resp.data.jget "gift_idea")⟩

/-- Embeds `groupService.deleteGiftIdea`. -/
def deleteGiftIdea (adapter : Int → ApiResponse) (groupId : String) :
    Option (ServiceCall Unit) :=
  match parseInt groupId with
  | none => some ⟨false, .err (.ofAppError (invalidGroupIdError groupId))⟩
  | some id =>
    let resp := adapter id
    if resp.error.truthy then
      (serviceAppError resp).map fun ae => ⟨true, .err (.ofAppError ae)⟩
    else some ⟨true, .ok ()⟩

end groupService

/-! ## The session/auth state holder (`src/context/AuthContext.tsx`) -/

/-- In-memory session state plus the two persisted device-storage slots
(`@auth_token`, `@auth_user`; `none` = key absent) and the token held by
the adapter singleton (`apiClient.token`).  The stored user record is kept
as a `JSValue` (the `JSON.stringify`/`JSON.parse` round trip through
storage is the identity on it). -/
structure AuthState where
  isAuthenticated : Bool
  userId : JSValue
  username : JSValue
  displayName : JSValue
  imageUrl : JSValue
  storedToken : Option JSValue
  storedUser : Option JSValue
  apiToken : Option JSValue
deriving Repr, DecidableEq

/-- Observable side effects of an auth-holder operation, in program order:
device-storage writes of the token and of the identity record, the purge
of both keys (`AsyncStorage.multiRemove`), and the in-memory transition to
the authenticated state (`setIsAuthenticated(true)`). -/
inductive AuthEvent where
  | writeToken : JSValue → AuthEvent
  | writeUser : JSValue → AuthEvent
  | purge : AuthEvent
  | markAuthenticated : AuthEvent
deriving Repr, DecidableEq

/-- Embeds `signIn` of `AuthContext.tsx` as a function of the login
response: on `response.error`, returns the error object and changes
nothing; on `response.data`, persists the token, then the identity record,
sets the adapter token, and only then marks the session authenticated;
with neither field, returns `{error: null}` and changes nothing.  The
result triple is (new state, side-effect trace, returned error value). -/
def signIn (st : AuthState) (resp : ApiResponse) :
    AuthState × List AuthEvent × JSValue :=
  if resp.error.truthy then
    (st, [],
     JSValue.mkObj false
       [("message", (resp.appError.jget "userMessage").jor resp.error)])
  else if resp.data.truthy then
    let token := resp.data.jget "token"
    let user := resp.data.jget "user"
    (⟨true, user.jget "id", user.jget "username", user.jget "display_name",
      (user.jget "image_url").jor .null, some token, some user, some token⟩,
     [.writeToken token, .writeUser user, .markAuthenticated], .null)
  else (st, [], .null)

/-- Embeds `signUp` of `AuthContext.tsx` (identical flow over the register
response). -/
def signUp (st : AuthState) (resp : ApiResponse) :
    AuthState × List AuthEvent × JSValue :=
  if resp.error.truthy then
    (st, [],
     JSValue.mkObj false
       [("message", (resp.appError.jget "userMessage").jor resp.error)])
  else if resp.data.truthy then
    let token := resp.data.jget "token"
    let user := resp.data.jget "user"
    (⟨true, user.jget "id", user.jget "username", user.jget "display_name",
      (user.jget "image_url").jor .null, some token, some user, some token⟩,
     [.writeToken token, .writeUser user, .markAuthenticated], .null)
  else (st, [], .null)

/-- Embeds `checkAuth` of `AuthContext.tsx` as a function of the stored
credentials and the `getMe` verification response: with both keys present
and truthy, the adapter token is set and `getMe` issued; a response with
`data` populates the in-memory identity and marks the session
authenticated; any other response purges both storage keys and clears the
adapter token (leaving the in-memory flags at their current values).  With
a missing key nothing happens. -/
def checkAuth (st : AuthState) (getMeResp : ApiResponse) :
    AuthState × List AuthEvent :=
  match st.storedToken, st.storedUser with
  | some tok, some userStr =>
    if tok.truthy && userStr.truthy then
      if getMeResp.data.truthy then
        let user := getMeResp.data.jget "user"
        (⟨true, user.jget "id", user.jget "username", user.jget "display_name",
          (user.jget "image_url").jor .null, some tok, some userStr, some tok⟩,
         [.markAuthenticated])
      else
        (⟨st.isAuthenticated, st.userId, st.username, st.displayName,
          st.imageUrl, none, none, none⟩, [.purge])
    else (st, [])
  | _, _ => (st, [])

/-- Embeds `signOut` of `AuthContext.tsx`: purge storage, clear the adapter
token, reset every in-memory field. -/
def signOut (_st : AuthState) : AuthState × List AuthEvent :=
  (⟨false, .null, .null, .null, .null, none, none, none⟩, [.purge])

/-- Embeds `loadGroups` of `src/screens/GroupsScreen.tsx` acting on the
session state and the current group-list view state: with a falsy
`userId` it returns at once; otherwise it calls
`groupService.getGroups` and stores the resolved list; a rejection
(impossible from `getGroups`, which swallows adapter errors, but modelled:
the catch shows an alert only) leaves the list.  The screen reads `userId`
from the auth context and never invokes any auth-state setter, so the
session state is returned untouched on every path. -/
def loadGroups (st : AuthState) (groups0 : JSValue) (resp : ApiResponse) :
    AuthState × JSValue :=
  if !st.userId.truthy then (st, groups0)
  else
    match groupService.getGroups resp with
    | some ⟨_, .ok gs⟩ => (st, gs)
    | some ⟨_, .err _⟩ => (st, groups0)
    | none => (st, groups0)

/-! ## Concrete fixtures used by witnesses and counterexamples -/

/-- Adapter stub resolving with an empty success response. -/
def okEmpty : ApiResponse := ⟨.undefined, .undefined, .undefined⟩

/-- An authenticated session with persisted credentials, as left by a
successful sign-in. -/
def authedState : AuthState :=
  ⟨true, .num 1, .str "alice", .str "Alice", .null,
   some (.str "tok"), some (JSValue.mkObj false [("id", .num 1)]), some (.str "tok")⟩

/-- A successful login/register response fixture. -/
def loginOk : ApiResponse :=
  ⟨JSValue.mkObj false
     [("token", .str "t"), ("user", JSValue.mkObj false [("id", .num 1)])],
   .undefined, .undefined⟩

/-- An object that already carries the AppError shape but is a `TypeError`
instance whose message mentions fetch. -/
def fetchShapedTypeError : JSValue :=
  JSValue.mkObj true
    [("message", .str "fetch failed"), ("type", .str "API"), ("userMessage", .str "boom")]

/-- A successful response whose body carries no entity. -/
def okNoEntity : ApiResponse := ⟨JSValue.mkObj false [], .undefined, .undefined⟩

/-! ## Shape lemmas about `parseError` and `request` -/

/-- Shape common to every value `parseError` returns: a truthy object with
`type` and `userMessage` fields, and, when it is a `TypeError` instance
(only possible for the pass-through branch), its message is a string that
does not mention fetch. -/
def AppErrorShaped (y : JSValue) : Prop :=
  y.truthy = true ∧ y.isObj = true ∧ y.hasField "type" = true ∧
  y.hasField "userMessage" = true ∧
  (y.isTypeErr = true → ∃ s, y.jget "message" = .str s ∧ strIncludes s "fetch" = false)

lemma shaped_mk5 (t m e sc um : JSValue) :
    AppErrorShaped (JSValue.mkObj false
      [("type", t), ("message", m), ("originalError", e),
       ("statusCode", sc), ("userMessage", um)]) := by
  refine ⟨rfl, rfl, ?_, ?_, ?_⟩ <;>
    simp [JSValue.mkObj, JSFields.ofList, JSValue.hasField, JSFields.lookup,
      JSValue.isTypeErr]

lemma shaped_mk4 (t m e um : JSValue) :
    AppErrorShaped (JSValue.mkObj false
      [("type", t), ("message", m), ("originalError", e), ("userMessage", um)]) := by
  refine ⟨rfl, rfl, ?_, ?_, ?_⟩ <;>
    simp [JSValue.mkObj, JSFields.ofList, JSValue.hasField, JSFields.lookup,
      JSValue.isTypeErr]

lemma parseErrorRest_out (x y : JSValue)
    (hx : x.isTypeErr = true → ∃ s, x.jget "message" = .str s ∧ strIncludes s "fetch" = false)
    (h : parseErrorRest x = some y) : AppErrorShaped y := by
  unfold parseErrorRest at h
  by_cases hg : (x.truthy && x.isObj && x.hasField "type" && x.hasField "userMessage") = true
  · rw [if_pos hg] at h
    cases h
    simp only [Bool.and_eq_true] at hg
    exact ⟨hg.1.1.1, hg.1.1.2, hg.1.2, hg.2, hx⟩
  · rw [if_neg hg] at h
    dsimp only at h
    split at h
    · split at h <;>
        · rw [Option.map_eq_some'] at h
          obtain ⟨um, -, rfl⟩ := h
          exact shaped_mk5 _ _ _ _ _
    · split at h
      · split at h
        · rw [Option.map_eq_some'] at h
          obtain ⟨um, -, rfl⟩ := h
          exact shaped_mk4 _ _ _ _
        · split at h <;>
            · rw [Option.map_eq_some'] at h
              obtain ⟨um, -, rfl⟩ := h
              exact shaped_mk4 _ _ _ _
      · exact Option.noConfusion h

lemma parseError_out (x y : JSValue) (h : parseError x = some y) : AppErrorShaped y := by
  unfold parseError at h
  by_cases ht : x.isTypeErr = true
  · rw [if_pos ht] at h
    cases hm : x.jget "message" with
    | str s =>
      rw [hm] at h
      dsimp only at h
      by_cases hf : strIncludes s "fetch" = true
      · rw [if_pos hf] at h
        rw [Option.map_eq_some'] at h
        obtain ⟨um, -, rfl⟩ := h
        exact shaped_mk4 _ _ _ _
      · rw [if_neg hf] at h
        refine parseErrorRest_out x y (fun _ => ⟨s, hm, ?_⟩) h
        simpa using hf
    | undefined => rw [hm] at h; exact Option.noConfusion h
    | null => rw [hm] at h; exact Option.noConfusion h
    | num n => rw [hm] at h; exact Option.noConfusion h
    | boolean b => rw [hm] at h; exact Option.noConfusion h
    | obj te fs => rw [hm] at h; exact Option.noConfusion h
    | arr l => rw [hm] at h; exact Option.noConfusion h
  · rw [if_neg ht] at h
    exact parseErrorRest_out x y (fun hc => absurd hc ht) h

lemma parseError_fix (y : JSValue) (hy : AppErrorShaped y) : parseError y = some y := by
  obtain ⟨h1, h2, h3, h4, h5⟩ := hy
  have hrest : parseErrorRest y = some y := by
    unfold parseErrorRest
    rw [if_pos (by simp [h1, h2, h3, h4])]
  unfold parseError
  by_cases ht : y.isTypeErr = true
  · obtain ⟨s, hs, hf⟩ := h5 ht
    rw [if_pos ht, hs]
    dsimp only
    rw [if_neg (by simp [hf])]
    exact hrest
  · rw [if_neg ht]
    exact hrest

lemma catchPath_appError_truthy (te : Bool) (msg : String)
    (h : (catchPath te msg).error.truthy = true) :
    (catchPath te msg).appError.truthy = true := by
  unfold catchPath at h ⊢
  cases hp : parseError (jsError te msg) with
  | none =>
    rw [hp] at h
    simp [JSValue.truthy] at h
  | some ae =>
    rw [hp] at h
    exact (parseError_out _ _ hp).1

lemma request_appError_truthy (o : FetchOutcome)
    (h : (request o).error.truthy = true) : (request o).appError.truthy = true := by
  cases o with
  | thrown te msg =>
    simp only [request] at h ⊢
    exact catchPath_appError_truthy te msg h
  | jsonParseFail status => simp [request, JSValue.mkObj, JSValue.truthy]
  | nonJson status text => simp [request, JSValue.mkObj, JSValue.truthy]
  | jsonResp status data =>
    simp only [request] at h ⊢
    by_cases h2 : 200 ≤ status ∧ status ≤ 299
    · rw [if_pos h2] at h
      exact absurd h (by simp [JSValue.truthy])
    · rw [if_neg h2] at h ⊢
      by_cases hn : data.nullish = true
      · rw [if_pos hn] at h ⊢
        exact catchPath_appError_truthy _ _ h
      · rw [if_neg hn]
        simp [JSValue.mkObj, JSValue.truthy]

lemma serviceAppError_request (o : FetchOutcome)
    (h : (request o).error.truthy = true) :
    serviceAppError (request o) = some (request o).appError := by
  unfold serviceAppError
  rw [if_pos (request_appError_truthy o h)]

lemma jget_mkObj_head (te : Bool) (k : String) (v : JSValue)
    (rest : List (String × JSValue)) :
    (JSValue.mkObj te ((k, v) :: rest)).jget k = v := by
  simp [JSValue.mkObj, JSFields.ofList, JSValue.jget, JSFields.lookup]

lemma parseError_jsError_fetch (msg : String) (hf : strIncludes msg "fetch" = true) :
    parseError (jsError true msg) = some (JSValue.mkObj false
      [("type", .str "NETWORK"), ("message", .str msg),
       ("originalError", jsError true msg),
       ("userMessage", .str "Unable to connect to the server. Please check your internet connection and try again.")]) := by
  unfold parseError
  have h1 : (jsError true msg).isTypeErr = true := by
    simp [jsError, JSValue.mkObj, JSValue.isTypeErr]
  have h2 : (jsError true msg).jget "message" = .str msg := jget_mkObj_head _ _ _ _
  rw [if_pos h1, h2]
  dsimp only
  rw [if_pos hf]
  rfl

lemma parseErrorRest_jsError_net (te : Bool) (msg : String) (hne : msg ≠ "")
    (hnet : (strIncludes (lowerStr msg) "network" || strIncludes (lowerStr msg) "connection") = true) :
    parseErrorRest (jsError te msg) = some (JSValue.mkObj false
      [("type", .str "NETWORK"), ("message", .str msg),
       ("originalError", jsError te msg),
       ("userMessage", .str "Unable to connect to the server. Please check your internet connection and try again.")]) := by
  unfold parseErrorRest
  rw [if_neg (by
    simp [jsError, JSValue.mkObj, JSFields.ofList, JSValue.hasField, JSFields.lookup])]
  rw [if_neg (by
    simp [jsError, JSValue.mkObj, JSFields.ofList, JSValue.jget, JSFields.lookup,
      JSValue.jor, JSValue.truthy])]
  have hmsg :
      (((jsError te msg).jget "message").jor ((jsError te msg).jget "error")).jor
        ((JSValue.str (jsToString (jsError te msg))).jor (.str "Unknown error")) = .str msg := by
    simp [jsError, JSValue.mkObj, JSFields.ofList, JSValue.jget, JSFields.lookup,
      JSValue.jor, JSValue.truthy, hne]
  rw [hmsg]
  dsimp only
  rw [if_pos hnet]
  rfl

/-! ## The claims -/

/-- C1: for every group ID string that fails integer parsing (`parseInt`
yields `NaN`), every read operation of the group service (`getGroupById`,
`getAssignment`, `getGiftIdeas`) returns `null` or an empty array, and
every write operation (`updateGroup`, `deleteGroup`, `inviteUser`,
`cancelInvitation`, `leaveGroup`, `removeMember`, `assignSecretSanta`,
`deleteAssignments`, `createGiftIdea`, `updateGiftIdea`, `deleteGiftIdea`)
throws a `GroupServiceError` whose `appError` is the synthesized
`VALIDATION`-typed error; in both cases the adapter is not called
(`adapterCalled = false`). -/
theorem claim_C1 (gid : String) (h : parseInt gid = none)
    (adapter : Int → ApiResponse) :
    groupService.getGroupById adapter gid = some ⟨false, .ok .null⟩ ∧
    groupService.getAssignment adapter gid = some ⟨false, .ok .null⟩ ∧
    groupService.getGiftIdeas adapter gid = some ⟨false, .ok (.arr .nil)⟩ ∧
    groupService.updateGroup adapter gid =
      some ⟨false, .err (.ofAppError (invalidGroupIdError gid))⟩ ∧
    groupService.deleteGroup adapter gid =
      some ⟨false, .err (.ofAppError (invalidGroupIdError gid))⟩ ∧
    groupService.inviteUser adapter gid =
      some ⟨false, .err (.ofAppError (invalidGroupIdError gid))⟩ ∧
    groupService.cancelInvitation adapter gid =
      some ⟨false, .err (.ofAppError (invalidGroupIdError gid))⟩ ∧
    groupService.leaveGroup adapter gid =
      some ⟨false, .err (.ofAppError (invalidGroupIdError gid))⟩ ∧
    groupService.removeMember adapter gid =
      some ⟨false, .err (.ofAppError (invalidGroupIdError gid))⟩ ∧
    groupService.assignSecretSanta adapter gid =
      some ⟨false, .err (.ofAppError (invalidGroupIdError gid))⟩ ∧
    groupService.deleteAssignments adapter gid =
      some ⟨false, .err (.ofAppError (invalidGroupIdError gid))⟩ ∧
    groupService.createGiftIdea adapter gid =
      some ⟨false, .err (.ofAppError (invalidGroupIdError gid))⟩ ∧
    groupService.updateGiftIdea adapter gid =
      some ⟨false, .err (.ofAppError (invalidGroupIdError gid))⟩ ∧
    groupService.deleteGiftIdea adapter gid =
      some ⟨false, .err (.ofAppError (invalidGroupIdError gid))⟩ ∧
    (invalidGroupIdError gid).jget "type" = .str "VALIDATION" := by
  refine ⟨?_, ?_, ?_, ?_, ?_, ?_, ?_, ?_, ?_, ?_, ?_, ?_, ?_, ?_, ?_⟩
  · simp [groupService.getGroupById, h]
  · simp [groupService.getAssignment, h]
  · simp [groupService.getGiftIdeas, h]
  · simp [groupService.updateGroup, h]
  · simp [groupService.deleteGroup, h]
  · simp [groupService.inviteUser, h]
  · simp [groupService.cancelInvitation, h]
  · simp [groupService.leaveGroup, h]
  · simp [groupService.removeMember, h]
  · simp [groupService.assignSecretSanta, h]
  · simp [groupService.deleteAssignments, h]
  · simp [groupService.createGiftIdea, h]
  · simp [groupService.updateGiftIdea, h]
  · simp [groupService.deleteGiftIdea, h]
  · exact jget_mkObj_head _ _ _ _

/-- Witness for C1 at the concrete unparsable id "abc". -/
theorem claim_C1_witness :
    parseInt "abc" = none ∧
    groupService.getGroupById (fun _ => okEmpty) "abc" = some ⟨false, .ok .null⟩ ∧
    groupService.leaveGroup (fun _ => okEmpty) "abc" =
      some ⟨false, .err (.ofAppError (invalidGroupIdError "abc"))⟩ := by
  refine ⟨by decide, ?_, ?_⟩
  · exact (claim_C1 "abc" (by decide) (fun _ => okEmpty)).1
  · exact (claim_C1 "abc" (by decide) (fun _ => okEmpty)).2.2.2.2.2.2.2.1

/-- C2: for every group ID string that parses as an integer, `leaveGroup`
run against adapter-produced responses either resolves, or — exactly when
the adapter response carries an error — throws the `GroupServiceError`
wrapping the classified `appError` (whose `userMessage` the exception
carries as its message); the result is always `some`, i.e. no other kind
of exception can escape. -/
theorem claim_C2 (gid : String) (id : Int) (h : parseInt gid = some id)
    (o : Int → FetchOutcome) :
    groupService.leaveGroup (fun i => request (o i)) gid =
      some ⟨true,
        if (request (o id)).error.truthy then
          .err (.ofAppError (request (o id)).appError)
        else .ok ()⟩ := by
  unfold groupService.leaveGroup
  rw [h]
  dsimp only
  by_cases he : (request (o id)).error.truthy = true
  · rw [if_pos he, if_pos he, serviceAppError_request (o id) he, Option.map_some']
  · rw [if_neg he, if_neg he]

/-- Witness for C2: a parseable id and a 500 response. -/
theorem claim_C2_witness :
    parseInt "7" = some 7 ∧
    groupService.leaveGroup (fun _ => request (FetchOutcome.jsonResp 500 .null)) "7" =
      some ⟨true,
        if (request (FetchOutcome.jsonResp 500 .null)).error.truthy then
          .err (.ofAppError (request (FetchOutcome.jsonResp 500 .null)).appError)
        else .ok ()⟩ :=
  ⟨by decide, claim_C2 "7" 7 (by decide) (fun _ => FetchOutcome.jsonResp 500 .null)⟩

/-- C3 counterexample: the group ID "-5" does not denote a positive
integer (`parseInt` yields `-5`), yet `getGroupById` calls the adapter
(`adapterCalled = true`) instead of degrading without a network call — the
code validates only against `NaN`, not positivity. -/
theorem claim_C3_counterexample :
    parseInt "-5" = some (-5) ∧
    groupService.getGroupById (fun _ => okEmpty) "-5" = some ⟨true, .ok .null⟩ := by
  constructor
  · decide
  · rfl

/-- C3 amended: the adapter is called exactly when the group ID string
parses as some integer — any integer, including zero and negatives; only
on parse failure (`NaN`) is the adapter skipped, with the read degrading
to `null` and the write throwing the synthesized validation error
(representative pair: `getGroupById`, `deleteGroup`). -/
theorem claim_C3 (gid : String) (adapter : Int → ApiResponse)
    (o : Int → FetchOutcome) :
    (parseInt gid = none →
      groupService.getGroupById adapter gid = some ⟨false, .ok .null⟩ ∧
      groupService.deleteGroup adapter gid =
        some ⟨false, .err (.ofAppError (invalidGroupIdError gid))⟩) ∧
    (∀ id : Int, parseInt gid = some id →
      (∃ c, groupService.getGroupById (fun i => request (o i)) gid = some c ∧
        c.adapterCalled = true) ∧
      (∃ c, groupService.deleteGroup (fun i => request (o i)) gid = some c ∧
        c.adapterCalled = true)) := by
  constructor
  · intro h
    exact ⟨by simp [groupService.getGroupById, h], by simp [groupService.deleteGroup, h]⟩
  · intro id h
    constructor
    · unfold groupService.getGroupById
      rw [h]
      dsimp only
      by_cases he : (request (o id)).error.truthy = true
      · rw [if_pos he, serviceAppError_request (o id) he, Option.map_some']
        exact ⟨_, rfl, rfl⟩
      · rw [if_neg he]
        exact ⟨_, rfl, rfl⟩
    · unfold groupService.deleteGroup
      rw [h]
      dsimp only
      by_cases he : (request (o id)).error.truthy = true
      · rw [if_pos he, serviceAppError_request (o id) he, Option.map_some']
        exact ⟨_, rfl, rfl⟩
      · rw [if_neg he]
        exact ⟨_, rfl, rfl⟩

/-- Witness for C3 at the id "12" and an empty 200 response. -/
theorem claim_C3_witness :
    parseInt "12" = some 12 ∧
    ∃ c, groupService.getGroupById (fun _ => request (FetchOutcome.jsonResp 200 .null)) "12" =
      some c ∧ c.adapterCalled = true :=
  ⟨by decide,
   ((claim_C3 "12" (fun _ => okEmpty) (fun _ => FetchOutcome.jsonResp 200 .null)).2
      12 (by decide)).1⟩

/-- C4 counterexample: `fetch` can reject with a `TypeError` whose message
is "Load failed" (the WebKit network-failure message); the adapter then
classifies the failure as `API`, not `NETWORK`. -/
theorem claim_C4_counterexample :
    ((request (.thrown true "Load failed")).appError).jget "type" = .str "API" ∧
    JSValue.str "API" ≠ JSValue.str "NETWORK" := by
  constructor
  · decide
  · decide

/-- C4 amended: a thrown fetch failure is classified `NETWORK` when the
thrown error is a `TypeError` whose message contains "fetch", or when its
message contains "network" or "connection" (case-insensitively) — the
shapes every standard fetch network failure except WebKit takes; other
thrown errors are classified by message sniffing and may map elsewhere
(e.g. `API`). -/
theorem claim_C4 (te : Bool) (msg : String)
    (hyp : (te = true ∧ strIncludes msg "fetch" = true) ∨
      strIncludes (lowerStr msg) "network" = true ∨
      strIncludes (lowerStr msg) "connection" = true) :
    ((request (.thrown te msg)).appError).jget "type" = .str "NETWORK" := by
  simp only [request, catchPath]
  rcases hyp with ⟨hte, hf⟩ | hnet
  · subst hte
    rw [parseError_jsError_fetch msg hf]
    exact jget_mkObj_head _ _ _ _
  · have hne : msg ≠ "" := by
      intro h0
      subst h0
      revert hnet
      decide
    have hnet' : (strIncludes (lowerStr msg) "network" ||
        strIncludes (lowerStr msg) "connection") = true := by
      rcases hnet with h | h <;> simp [h]
    by_cases hte : te = true
    · subst hte
      by_cases hf : strIncludes msg "fetch" = true
      · rw [parseError_jsError_fetch msg hf]
        exact jget_mkObj_head _ _ _ _
      · have : parseError (jsError true msg) = some (JSValue.mkObj false
          [("type", .str "NETWORK"), ("message", .str msg),
           ("originalError", jsError true msg),
           ("userMessage", .str "Unable to connect to the server. Please check your internet connection and try again.")]) := by
          unfold parseError
          have h1 : (jsError true msg).isTypeErr = true := by
            simp [jsError, JSValue.mkObj, JSValue.isTypeErr]
          have h2 : (jsError true msg).jget "message" = .str msg :=
            jget_mkObj_head _ _ _ _
          rw [if_pos h1, h2]
          dsimp only
          rw [if_neg hf]
          exact parseErrorRest_jsError_net true msg hne hnet'
        rw [this]
        exact jget_mkObj_head _ _ _ _
    · have hte0 : te = false := by simpa using hte
      subst hte0
      have : parseError (jsError false msg) = some (JSValue.mkObj false
          [("type", .str "NETWORK"), ("message", .str msg),
           ("originalError", jsError false msg),
           ("userMessage", .str "Unable to connect to the server. Please check your internet connection and try again.")]) := by
        unfold parseError
        rw [if_neg (by simp [jsError, JSValue.mkObj, JSValue.isTypeErr, JSFields.ofList])]
        exact parseErrorRest_jsError_net false msg hne hnet'
      rw [this]
      exact jget_mkObj_head _ _ _ _

/-- Witness for C4 at the Chrome network-failure message. -/
theorem claim_C4_witness :
    ((request (.thrown true "Failed to fetch")).appError).jget "type" = .str "NETWORK" :=
  claim_C4 true "Failed to fetch" (Or.inl ⟨rfl, by decide⟩)

/-- C5 counterexample: a non-2xx JSON response whose parsed body is
`null` (a legitimate JSON document) does not follow the status mapping:
at status 404 the plain `data.error` read throws inside the try block and
the catch classifies the response `API`, not `NOT_FOUND`. -/
theorem claim_C5_counterexample :
    ((request (.jsonResp 404 .null)).appError).jget "type" = .str "API" ∧
    JSValue.str "API" ≠ JSValue.str "NOT_FOUND" := by
  constructor
  · decide
  · decide

/-- C5 amended: for a non-2xx JSON response whose parsed body is readable
(not `null`; `undefined` is not a JSON value but is treated alike),
`request` classifies by status code: 401 → `AUTHENTICATION`,
403 → `AUTHORIZATION`, 404 → `NOT_FOUND`, 400 → `VALIDATION`, any status
of 500 or above → `SERVER`, and every other non-2xx status → `API`;
when the body is `null` the `data.error` read throws and the catch path
classifies the response `API` regardless of status. -/
theorem claim_C5 (status : Nat) (body : JSValue)
    (h : ¬(200 ≤ status ∧ status ≤ 299)) :
    (body.nullish = false → status = 401 →
      ((request (.jsonResp status body)).appError).jget "type" = .str "AUTHENTICATION") ∧
    (body.nullish = false → status = 403 →
      ((request (.jsonResp status body)).appError).jget "type" = .str "AUTHORIZATION") ∧
    (body.nullish = false → status = 404 →
      ((request (.jsonResp status body)).appError).jget "type" = .str "NOT_FOUND") ∧
    (body.nullish = false → status = 400 →
      ((request (.jsonResp status body)).appError).jget "type" = .str "VALIDATION") ∧
    (body.nullish = false → 500 ≤ status →
      ((request (.jsonResp status body)).appError).jget "type" = .str "SERVER") ∧
    (body.nullish = false → status ≠ 400 → status ≠ 401 → status ≠ 403 → status ≠ 404 →
      status < 500 →
      ((request (.jsonResp status body)).appError).jget "type" = .str "API") ∧
    (body.nullish = true →
      ((request (.jsonResp status body)).appError).jget "type" = .str "API") := by
  have hnull : body.nullish = true →
      ((request (.jsonResp status body)).appError).jget "type" = .str "API" := by
    intro hb
    have hb0 : body = .null ∨ body = .undefined := by
      cases body <;> simp_all [JSValue.nullish]
    simp only [request]
    rw [if_neg h, if_pos hb]
    rcases hb0 with hb0 | hb0 <;> (subst hb0; decide)
  have base : body.nullish = false →
      ((request (.jsonResp status body)).appError).jget "type" =
      (if status = 401 then JSValue.str "AUTHENTICATION"
       else if status = 403 then JSValue.str "AUTHORIZATION"
       else if status = 404 then JSValue.str "NOT_FOUND"
       else if status = 400 then JSValue.str "VALIDATION"
       else if 500 ≤ status then JSValue.str "SERVER"
       else JSValue.str "API") := by
    intro hb
    simp only [request]
    rw [if_neg h, if_neg (by simp [hb])]
    exact jget_mkObj_head _ _ _ _
  refine ⟨?_, ?_, ?_, ?_, ?_, ?_, hnull⟩
  · intro hb h4; subst h4; simpa using base hb
  · intro hb h4; subst h4; simpa using base hb
  · intro hb h4; subst h4; simpa using base hb
  · intro hb h4; subst h4; simpa using base hb
  · intro hb h5
    rw [base hb]
    have n1 : status ≠ 401 := by omega
    have n3 : status ≠ 403 := by omega
    have n4 : status ≠ 404 := by omega
    have n0 : status ≠ 400 := by omega
    simp [n1, n3, n4, n0, h5]
  · intro hb n0 n1 n3 n4 h5
    rw [base hb]
    simp [n1, n3, n4, n0]
    omega

/-- Witness for C5 at a 404 response with a readable (object) body. -/
theorem claim_C5_witness :
    ((request (.jsonResp 404 (JSValue.mkObj false []))).appError).jget "type" =
      .str "NOT_FOUND" ∧
    ((request (.jsonResp 404 .null)).appError).jget "type" = .str "API" :=
  ⟨(claim_C5 404 (JSValue.mkObj false []) (by decide)).2.2.1 rfl rfl,
   (claim_C5 404 .null (by decide)).2.2.2.2.2.2 rfl⟩

/-- C6 counterexample: a 401 on the group-list endpoint is classified
`AUTHENTICATION`, yet the groups-screen load leaves the session holder
authenticated with the token still persisted — the holder does not
transition to anonymous and nothing is purged (only the `checkAuth`
verification path reacts to a failed `getMe`). -/
theorem claim_C6_counterexample :
    ((request (.jsonResp 401 (JSValue.mkObj false []))).appError).jget "type" =
      .str "AUTHENTICATION" ∧
    loadGroups authedState (.arr .nil) (request (.jsonResp 401 (JSValue.mkObj false []))) =
      (authedState, .arr .nil) ∧
    authedState.isAuthenticated = true ∧
    authedState.storedToken = some (.str "tok") := by
  refine ⟨by decide, by decide, rfl, rfl⟩

/-- C6 amended: a 401 JSON response with a readable (non-null) body
classifies as `AUTHENTICATION`, while a 401 whose JSON body is `null` and
a 401 with a non-JSON body classify as `API`; and the session holder
transitions to anonymous and purges the persisted token/identity only on
the session-verification path — `checkAuth` purges storage and the
adapter token whenever `getMe` comes back without data — whereas a
service read (the groups screen) never changes the session state at
all. -/
theorem claim_C6 :
    (∀ body : JSValue, body.nullish = false →
      ((request (.jsonResp 401 body)).appError).jget "type" = .str "AUTHENTICATION") ∧
    (((request (.jsonResp 401 .null)).appError).jget "type" = .str "API") ∧
    (∀ text : String,
      ((request (.nonJson 401 text)).appError).jget "type" = .str "API") ∧
    (∀ (st : AuthState) (g : JSValue) (resp : ApiResponse),
      (loadGroups st g resp).1 = st) ∧
    (∀ (st : AuthState) (tok u : JSValue) (resp : ApiResponse),
      st.storedToken = some tok → tok.truthy = true →
      st.storedUser = some u → u.truthy = true →
      resp.data.truthy = false →
      checkAuth st resp =
        (⟨st.isAuthenticated, st.userId, st.username, st.displayName,
          st.imageUrl, none, none, none⟩, [.purge])) := by
  refine ⟨?_, by decide, ?_, ?_, ?_⟩
  · intro body hb
    simp only [request]
    rw [if_neg (by omega), if_neg (by simp [hb])]
    have := jget_mkObj_head false "type"
      (if (401 : Nat) = 401 then JSValue.str "AUTHENTICATION"
       else if (401 : Nat) = 403 then JSValue.str "AUTHORIZATION"
       else if (401 : Nat) = 404 then JSValue.str "NOT_FOUND"
       else if (401 : Nat) = 400 then JSValue.str "VALIDATION"
       else if 500 ≤ (401 : Nat) then JSValue.str "SERVER"
       else JSValue.str "API")
    simpa using this _
  · intro text
    simp only [request]
    have := jget_mkObj_head false "type"
      (if 500 ≤ (401 : Nat) then JSValue.str "SERVER" else JSValue.str "API")
    simpa using this _
  · intro st g resp
    unfold loadGroups
    split
    · rfl
    · split <;> rfl
  · intro st tok u resp h1 htok h2 hu hdata
    unfold checkAuth
    rw [h1, h2]
    dsimp only
    rw [if_pos (by simp [htok, hu]), if_neg (by simp [hdata])]

/-- Witness for C6 with the concrete authenticated state and a dataless
`getMe` response. -/
theorem claim_C6_witness :
    checkAuth authedState ⟨.undefined, .str "Your session has expired. Please log in again.", .undefined⟩ =
      (⟨true, .num 1, .str "alice", .str "Alice", .null, none, none, none⟩, [.purge]) ∧
    ((request (.jsonResp 401 (JSValue.mkObj false []))).appError).jget "type" =
      .str "AUTHENTICATION" :=
  ⟨(claim_C6).2.2.2.2 authedState (.str "tok") (JSValue.mkObj false [("id", .num 1)])
     ⟨.undefined, .str "Your session has expired. Please log in again.", .undefined⟩
     rfl (by decide) rfl (by decide) (by decide),
   (claim_C6).1 (JSValue.mkObj false []) rfl⟩

/-- C7: against adapter-produced responses, every read-oriented service
operation resolves (`SvcOutcome.ok`, never a throw, never an escaping
exception), and whenever the adapter reports an error the resolved value
is the empty array (`getGroups`, `getPendingInvitations`, `getGiftIdeas`)
or `null` (`getGroupById`, `getAssignment`); in particular `getAssignment`
resolves with the assignment field or `null` for every group-id string
and every adapter outcome. -/
theorem claim_C7 (o : FetchOutcome) (oid : Int → FetchOutcome) (gid : String) :
    (∃ v, groupService.getGroups (request o) = some ⟨true, .ok v⟩ ∧
      ((request o).error.truthy = true → v = .arr .nil)) ∧
    (∃ v, groupService.getPendingInvitations (request o) = some ⟨true, .ok v⟩ ∧
      ((request o).error.truthy = true → v = .arr .nil)) ∧
    (∃ b v, groupService.getGroupById (fun i => request (oid i)) gid = some ⟨b, .ok v⟩ ∧
      (∀ id, parseInt gid = some id → (request (oid id)).error.truthy = true → v = .null)) ∧
    (∃ b v, groupService.getAssignment (fun i => request (oid i)) gid = some ⟨b, .ok v⟩ ∧
      (∀ id, parseInt gid = some id → (request (oid id)).error.truthy = true → v = .null)) ∧
    (∃ b v, groupService.getGiftIdeas (fun i => request (oid i)) gid = some ⟨b, .ok v⟩ ∧
      (∀ id, parseInt gid = some id → (request (oid id)).error.truthy = true →
        v = .arr .nil)) := by
  refine ⟨?_, ?_, ?_, ?_, ?_⟩
  · by_cases he : (request o).error.truthy = true
    · refine ⟨.arr .nil, ?_, fun _ => rfl⟩
      unfold groupService.getGroups
      rw [if_pos he, serviceAppError_request o he, Option.map_some']
    · refine ⟨((request o).data.jget "groups").jor (.arr .nil), ?_, fun hc => absurd hc he⟩
      unfold groupService.getGroups
      rw [if_neg he]
  · by_cases he : (request o).error.truthy = true
    · refine ⟨.arr .nil, ?_, fun _ => rfl⟩
      unfold groupService.getPendingInvitations
      rw [if_pos he, serviceAppError_request o he, Option.map_some']
    · refine ⟨((request o).data.jget "invitations").jor (.arr .nil), ?_, fun hc => absurd hc he⟩
      unfold groupService.getPendingInvitations
      rw [if_neg he]
  · cases hp : parseInt gid with
    | none =>
      refine ⟨false, .null, by simp [groupService.getGroupById, hp], ?_⟩
      intro id hid
      exact fun _ => rfl
    | some id =>
      by_cases he : (request (oid id)).error.truthy = true
      · refine ⟨true, .null, ?_, fun _ _ _ => rfl⟩
        unfold groupService.getGroupById
        rw [hp]
        dsimp only
        rw [if_pos he, serviceAppError_request _ he, Option.map_some']
      · refine ⟨true, ((request (oid id)).data.jget "group").jor .null, ?_, ?_⟩
        · unfold groupService.getGroupById
          rw [hp]
          dsimp only
          rw [if_neg he]
        · intro id' hid' herr
          cases hid'
          exact absurd herr he
  · cases hp : parseInt gid with
    | none =>
      refine ⟨false, .null, by simp [groupService.getAssignment, hp], ?_⟩
      intro id hid
      exact fun _ => rfl
    | some id =>
      by_cases he : (request (oid id)).error.truthy = true
      · refine ⟨true, .null, ?_, fun _ _ _ => rfl⟩
        unfold groupService.getAssignment
        rw [hp]
        dsimp only
        rw [if_pos he, serviceAppError_request _ he, Option.map_some']
      · refine ⟨true, ((request (oid id)).data.jget "assignment").jor .null, ?_, ?_⟩
        · unfold groupService.getAssignment
          rw [hp]
          dsimp only
          rw [if_neg he]
        · intro id' hid' herr
          cases hid'
          exact absurd herr he
  · cases hp : parseInt gid with
    | none =>
      refine ⟨false, .arr .nil, by simp [groupService.getGiftIdeas, hp], ?_⟩
      intro id hid
      exact fun _ => rfl
    | some id =>
      by_cases he : (request (oid id)).error.truthy = true
      · refine ⟨true, .arr .nil, ?_, fun _ _ _ => rfl⟩
        unfold groupService.getGiftIdeas
        rw [hp]
        dsimp only
        rw [if_pos he, serviceAppError_request _ he, Option.map_some']
      · refine ⟨true, ((request (oid id)).data.jget "gift_ideas").jor (.arr .nil), ?_, ?_⟩
        · unfold groupService.getGiftIdeas
          rw [hp]
          dsimp only
          rw [if_neg he]
        · intro id' hid' herr
          cases hid'
          exact absurd herr he

/-- Witness for C7: a 500 adapter failure and the id "7". -/
theorem claim_C7_witness :
    ∃ v, groupService.getGroups (request (.jsonResp 500 .null)) = some ⟨true, .ok v⟩ ∧
      ((request (.jsonResp 500 .null)).error.truthy = true → v = .arr .nil) :=
  (claim_C7 (.jsonResp 500 .null) (fun _ => .jsonResp 500 .null) "7").1

/-- C8: `signIn` and `signUp` mark the session authenticated only when the
remote call succeeded (no error, data present); on success the side-effect
trace is exactly token write, then identity write, then the authenticated
transition, with both values persisted; on a failed call (error reported,
or no data) the in-memory state and persisted storage are returned
unchanged with an empty trace. -/
theorem claim_C8 (st : AuthState) (resp : ApiResponse) :
    ((signIn st resp).1.isAuthenticated = true →
      st.isAuthenticated = true ∨ (resp.error.truthy = false ∧ resp.data.truthy = true)) ∧
    (resp.error.truthy = true →
      signIn st resp = (st, [],
        JSValue.mkObj false [("message", (resp.appError.jget "userMessage").jor resp.error)])) ∧
    (resp.error.truthy = false → resp.data.truthy = true →
      (signIn st resp).2.1 =
        [.writeToken (resp.data.jget "token"), .writeUser (resp.data.jget "user"),
         .markAuthenticated] ∧
      (signIn st resp).1.storedToken = some (resp.data.jget "token") ∧
      (signIn st resp).1.storedUser = some (resp.data.jget "user") ∧
      (signIn st resp).1.isAuthenticated = true) ∧
    (resp.error.truthy = false → resp.data.truthy = false →
      signIn st resp = (st, [], .null)) ∧
    ((signUp st resp).1.isAuthenticated = true →
      st.isAuthenticated = true ∨ (resp.error.truthy = false ∧ resp.data.truthy = true)) ∧
    (resp.error.truthy = true →
      signUp st resp = (st, [],
        JSValue.mkObj false [("message", (resp.appError.jget "userMessage").jor resp.error)])) ∧
    (resp.error.truthy = false → resp.data.truthy = true →
      (signUp st resp).2.1 =
        [.writeToken (resp.data.jget "token"), .writeUser (resp.data.jget "user"),
         .markAuthenticated] ∧
      (signUp st resp).1.storedToken = some (resp.data.jget "token") ∧
      (signUp st resp).1.storedUser = some (resp.data.jget "user") ∧
      (signUp st resp).1.isAuthenticated = true) ∧
    (resp.error.truthy = false → resp.data.truthy = false →
      signUp st resp = (st, [], .null)) := by
  refine ⟨?_, ?_, ?_, ?_, ?_, ?_, ?_, ?_⟩
  · intro h
    unfold signIn at h
    by_cases he : resp.error.truthy = true
    · rw [if_pos he] at h
      exact Or.inl h
    · rw [if_neg he] at h
      by_cases hd : resp.data.truthy = true
      · exact Or.inr ⟨by simpa using he, hd⟩
      · rw [if_neg hd] at h
        exact Or.inl h
  · intro he
    unfold signIn
    rw [if_pos he]
  · intro he hd
    unfold signIn
    rw [if_neg (by simp [he]), if_pos hd]
    exact ⟨rfl, rfl, rfl, rfl⟩
  · intro he hd
    unfold signIn
    rw [if_neg (by simp [he]), if_neg (by simp [hd])]
  · intro h
    unfold signUp at h
    by_cases he : resp.error.truthy = true
    · rw [if_pos he] at h
      exact Or.inl h
    · rw [if_neg he] at h
      by_cases hd : resp.data.truthy = true
      · exact Or.inr ⟨by simpa using he, hd⟩
      · rw [if_neg hd] at h
        exact Or.inl h
  · intro he
    unfold signUp
    rw [if_pos he]
  · intro he hd
    unfold signUp
    rw [if_neg (by simp [he]), if_pos hd]
    exact ⟨rfl, rfl, rfl, rfl⟩
  · intro he hd
    unfold signUp
    rw [if_neg (by simp [he]), if_neg (by simp [hd])]

/-- Witness for C8 at a concrete successful login response. -/
theorem claim_C8_witness :
    (signIn authedState loginOk).2.1 =
      [.writeToken (loginOk.data.jget "token"), .writeUser (loginOk.data.jget "user"),
       .markAuthenticated] ∧
    (signIn authedState loginOk).1.isAuthenticated = true :=
  ⟨((claim_C8 authedState loginOk).2.2.1 rfl rfl).1,
   ((claim_C8 authedState loginOk).2.2.1 rfl rfl).2.2.2⟩

/-- C9 counterexample: an object with both a `type` and a `userMessage`
field is not always returned unchanged — a `TypeError` instance whose
message mentions fetch is caught by the network branch first and replaced
by a fresh `NETWORK` error. -/
theorem claim_C9_counterexample :
    fetchShapedTypeError.hasField "type" = true ∧
    fetchShapedTypeError.hasField "userMessage" = true ∧
    parseError fetchShapedTypeError ≠ some fetchShapedTypeError := by
  refine ⟨by decide, by decide, by decide⟩

/-- C9 amended: `parseError` is idempotent in the Kleisli sense — whenever
it returns a value, re-applying it returns that value unchanged (and a
throwing input stays throwing under composition); and a truthy non-`TypeError`
object carrying both a `type` and a `userMessage` field is returned
unchanged. -/
theorem claim_C9 :
    (∀ x, (parseError x).bind parseError = parseError x) ∧
    (∀ x : JSValue, x.truthy = true → x.isObj = true → x.hasField "type" = true →
      x.hasField "userMessage" = true → x.isTypeErr = false → parseError x = some x) := by
  constructor
  · intro x
    cases hx : parseError x with
    | none => rfl
    | some y =>
      rw [Option.some_bind]
      exact parseError_fix y (parseError_out x y hx)
  · intro x h1 h2 h3 h4 h5
    exact parseError_fix x ⟨h1, h2, h3, h4, fun hc => absurd hc (by simp [h5])⟩

/-- Witness for C9 at a plain AppError-shaped object. -/
theorem claim_C9_witness :
    parseError (JSValue.mkObj false [("type", .str "API"), ("userMessage", .str "m")]) =
      some (JSValue.mkObj false [("type", .str "API"), ("userMessage", .str "m")]) ∧
    (parseError (JSValue.mkObj false [("type", .str "API"), ("userMessage", .str "m")])).bind
        parseError =
      parseError (JSValue.mkObj false [("type", .str "API"), ("userMessage", .str "m")]) :=
  ⟨claim_C9.2 _ (by decide) (by decide) (by decide) (by decide) (by decide),
   claim_C9.1 _⟩

/-- C10: for the payload-returning mutations, a successful adapter
response whose body lacks a truthy entity field makes the operation throw
the `API`-typed `noDataError` instead of resolving; consequently none of
them can resolve with a missing (falsy) entity. -/
theorem claim_C10 (resp : ApiResponse) (gid : String) (id : Int)
    (adapter : Int → ApiResponse) :
    (resp.error.truthy = false → (resp.data.jget "group").truthy = false →
      groupService.createGroup resp = some ⟨true, .err (.ofAppError
        (noDataError "No group data returned" "Failed to create group. Please try again."))⟩) ∧
    (parseInt gid = some id → (adapter id).error.truthy = false →
      ((adapter id).data.jget "group").truthy = false →
      groupService.updateGroup adapter gid = some ⟨true, .err (.ofAppError
        (noDataError "No group data returned" "Failed to update group. Please try again."))⟩) ∧
    (parseInt gid = some id → (adapter id).error.truthy = false →
      ((adapter id).data.jget "gift_idea").truthy = false →
      groupService.createGiftIdea adapter gid = some ⟨true, .err (.ofAppError
        (noDataError "No gift idea data returned" "Failed to create gift idea. Please try again."))⟩) ∧
    (parseInt gid = some id → (adapter id).error.truthy = false →
      ((adapter id).data.jget "gift_idea").truthy = false →
      groupService.updateGiftIdea adapter gid = some ⟨true, .err (.ofAppError
        (noDataError "No gift idea data returned" "Failed to update gift idea. Please try again."))⟩) ∧
    (∀ m um, (noDataError m um).jget "type" = .str "API") ∧
    (∀ b v, groupService.createGroup resp = some ⟨b, .ok v⟩ → v.truthy = true) ∧
    (∀ b v, groupService.updateGroup adapter gid = some ⟨b, .ok v⟩ → v.truthy = true) ∧
    (∀ b v, groupService.createGiftIdea adapter gid = some ⟨b, .ok v⟩ → v.truthy = true) ∧
    (∀ b v, groupService.updateGiftIdea adapter gid = some ⟨b, .ok v⟩ → v.truthy = true) := by
  refine ⟨?_, ?_, ?_, ?_, ?_, ?_, ?_, ?_, ?_⟩
  · intro he hg
    unfold groupService.createGroup
    rw [if_neg (by simp [he]), if_pos (by simp [hg])]
  · intro hp he hg
    unfold groupService.updateGroup
    rw [hp]
    dsimp only
    rw [if_neg (by simp [he]), if_pos (by simp [hg])]
  · intro hp he hg
    unfold groupService.createGiftIdea
    rw [hp]
    dsimp only
    rw [if_neg (by simp [he]), if_pos (by simp [hg])]
  · intro hp he hg
    unfold groupService.updateGiftIdea
    rw [hp]
    dsimp only
    rw [if_neg (by simp [he]), if_pos (by simp [hg])]
  · intro m um
    exact jget_mkObj_head _ _ _ _
  · intro b v h
    unfold groupService.createGroup at h
    by_cases he : resp.error.truthy = true
    · rw [if_pos he] at h
      rw [Option.map_eq_some'] at h
      obtain ⟨ae, -, heq⟩ := h
      exact absurd (congrArg ServiceCall.outcome heq) (by simp)
    · rw [if_neg he] at h
      by_cases hg : (!(resp.data.jget "group").truthy) = true
      · rw [if_pos hg] at h
        simp at h
      · rw [if_neg hg] at h
        obtain ⟨-, hv⟩ := by simpa using h
        rw [← hv]
        simpa using hg
  · intro b v h
    unfold groupService.updateGroup at h
    cases hp : parseInt gid with
    | none =>
      rw [hp] at h
      simp at h
    | some id' =>
      rw [hp] at h
      dsimp only at h
      by_cases he : (adapter id').error.truthy = true
      · rw [if_pos he] at h
        rw [Option.map_eq_some'] at h
        obtain ⟨ae, -, heq⟩ := h
        exact absurd (congrArg ServiceCall.outcome heq) (by simp)
      · rw [if_neg he] at h
        by_cases hg : (!((adapter id').data.jget "group").truthy) = true
        · rw [if_pos hg] at h
          simp at h
        · rw [if_neg hg] at h
          obtain ⟨-, hv⟩ := by simpa using h
          rw [← hv]
          simpa using hg
  · intro b v h
    unfold groupService.createGiftIdea at h
    cases hp : parseInt gid with
    | none =>
      rw [hp] at h
      simp at h
    | some id' =>
      rw [hp] at h
      dsimp only at h
      by_cases he : (adapter id').error.truthy = true
      · rw [if_pos he] at h
        rw [Option.map_eq_some'] at h
        obtain ⟨ae, -, heq⟩ := h
        exact absurd (congrArg ServiceCall.outcome heq) (by simp)
      · rw [if_neg he] at h
        by_cases hg : (!((adapter id').data.jget "gift_idea").truthy) = true
        · rw [if_pos hg] at h
          simp at h
        · rw [if_neg hg] at h
          obtain ⟨-, hv⟩ := by simpa using h
          rw [← hv]
          simpa using hg
  · intro b v h
    unfold groupService.updateGiftIdea at h
    cases hp : parseInt gid with
    | none =>
      rw [hp] at h
      simp at h
    | some id' =>
      rw [hp] at h
      dsimp only at h
      by_cases he : (adapter id').error.truthy = true
      · rw [if_pos he] at h
        rw [Option.map_eq_some'] at h
        obtain ⟨ae, -, heq⟩ := h
        exact absurd (congrArg ServiceCall.outcome heq) (by simp)
      · rw [if_neg he] at h
        by_cases hg : (!((adapter id').data.jget "gift_idea").truthy) = true
        · rw [if_pos hg] at h
          simp at h
        · rw [if_neg hg] at h
          obtain ⟨-, hv⟩ := by simpa using h
          rw [← hv]
          simpa using hg

/-- Witness for C10: a success body without a group makes `createGroup`
throw the `API`-typed error. -/
theorem claim_C10_witness :
    groupService.createGroup okNoEntity = some ⟨true, .err (.ofAppError
      (noDataError "No group data returned" "Failed to create group. Please try again."))⟩ ∧
    (noDataError "No group data returned" "Failed to create group. Please try again.").jget
        "type" = .str "API" :=
  ⟨(claim_C10 okNoEntity "3" 3 (fun _ => okNoEntity)).1 (by decide) (by decide),
   (claim_C10 okNoEntity "3" 3 (fun _ => okNoEntity)).2.2.2.2.1 _ _⟩
